import Mathlib

/-!
# Verification of the ProPublica nonprofit API access layer

Shallow embedding of the rate-limited, retrying HTTP client and its
response-normalization logic (`src/propublica_mcp/api_client.py`,
`models.py`) and of the tool boundary (`src/propublica_mcp/server.py`),
together with theorems settling the specification claims about them.

Python strings that the source slices, pads, filters or strips are
modelled as `List Char`; opaque strings (names, URLs) stay `String`.
Python numbers are modelled exactly: `int` as `Int`, `float` as `ℚ`
(the value denoted by the decimal literal; binary rounding of IEEE
floats is not modelled, no claim depends on it).
-/

namespace Propublica

/-- Python-style scalar values as they arrive in upstream JSON fields. -/
inductive PyVal where
  | vint (n : Int)
  | vfloat (q : ℚ)
  | vstr (s : List Char)
  | vnone
deriving DecidableEq, Repr

/-- Python truthiness for the scalar values above (`if v:`). -/
def pyTruthy : PyVal → Bool
  | .vint n => n ≠ 0
  | .vfloat q => q ≠ 0
  | .vstr s => !s.isEmpty
  | .vnone => false

/-- Python `str(v)` for the values the source stringifies (`tax_prd` is an
int or string upstream; a float here is not modelled and no claim uses one). -/
def pyStr : PyVal → List Char
  | .vint n => (toString n).data
  | .vstr s => s
  | .vfloat _ => []
  | .vnone => ['N', 'o', 'n', 'e']

/-- Drop trailing characters satisfying `p` (right half of Python `strip`). -/
def dropTrailing (p : Char → Bool) (l : List Char) : List Char :=
  (l.reverse.dropWhile p).reverse

/-- Python `str.strip()`: remove leading and trailing whitespace. -/
def trimChars (l : List Char) : List Char :=
  dropTrailing Char.isWhitespace (l.dropWhile Char.isWhitespace)

/-- Numeric value of a nonempty all-digit character list. -/
def digitsVal (l : List Char) : Nat :=
  l.foldl (fun a c => 10 * a + (c.toNat - 48)) 0

/-- Digit-run check used by Python `int(...)` and `str.isdigit()`:
nonempty and all decimal digits (ASCII; Unicode digit classes not modelled). -/
def allDigits (l : List Char) : Bool :=
  !l.isEmpty && l.all Char.isDigit

/-- Python `int(s)` on a string: optional surrounding whitespace, optional
sign, then a nonempty digit run (underscore separators not modelled). -/
def pyInt : List Char → Option Int
  | s =>
    let t := trimChars s
    match t with
    | '-' :: rest => if allDigits rest then some (-(digitsVal rest : Int)) else none
    | '+' :: rest => if allDigits rest then some (digitsVal rest : Int) else none
    | _ => if allDigits t then some (digitsVal t : Int) else none

/-- Mantissa of a Python float literal: `digits`, `digits.`, `.digits`
or `digits.digits`. Returns the exact rational value. -/
def parseMantissa (l : List Char) : Option ℚ :=
  let intPart := l.takeWhile Char.isDigit
  let rest := l.dropWhile Char.isDigit
  match rest with
  | [] => if !intPart.isEmpty then some ((digitsVal intPart : ℚ)) else none
  | '.' :: frac =>
      if frac.all Char.isDigit && (!intPart.isEmpty || !frac.isEmpty) then
        some ((digitsVal intPart : ℚ) + (digitsVal frac : ℚ) / (10 : ℚ) ^ frac.length)
      else none
  | _ => none

/-- Unsigned part of Python `float(s)`: mantissa with optional `e`/`E`
exponent (`inf`/`nan` spellings not modelled; no claim uses them). -/
def parseUnsignedFloat (l : List Char) : Option ℚ :=
  let mant := l.takeWhile (fun c => c ≠ 'e' ∧ c ≠ 'E')
  let rest := l.dropWhile (fun c => c ≠ 'e' ∧ c ≠ 'E')
  match rest with
  | [] => parseMantissa mant
  | _ :: es =>
      match parseMantissa mant, pyIntNoWs es with
      | some m, some e => some (m * (10 : ℚ) ^ e)
      | _, _ => none
where
  /-- Exponent digits: optional sign then digits, no inner whitespace. -/
  pyIntNoWs : List Char → Option Int
  | '-' :: rest => if allDigits rest then some (-(digitsVal rest : Int)) else none
  | '+' :: rest => if allDigits rest then some (digitsVal rest : Int) else none
  | t => if allDigits t then some (digitsVal t : Int) else none

/-- Python `float(s)` on a string: strip whitespace, optional sign, then an
unsigned float literal. -/
def pyFloat (s : List Char) : Option ℚ :=
  let t := trimChars s
  match t with
  | '-' :: rest => (parseUnsignedFloat rest).map Neg.neg
  | '+' :: rest => parseUnsignedFloat rest
  | _ => parseUnsignedFloat t

/-- Python `str.zfill(n)`: left-pad with zeros to length `n`, keeping a
leading sign character in front of the padding. -/
def zfill (s : List Char) (n : Nat) : List Char :=
  if n ≤ s.length then s
  else
    match s with
    | [] => List.replicate n '0'
    | c :: rest =>
        if c = '+' ∨ c = '-' then c :: (List.replicate (n - s.length) '0' ++ rest)
        else List.replicate (n - s.length) '0' ++ s

/-- The regex check of `NonprofitOrganization.validate_ein` applied to
the hyphen-stripped value: exactly nine decimal digits. -/
def nineDigits (l : List Char) : Bool :=
  l.length = 9 && l.all Char.isDigit

/-- EIN cleaning used at every operation boundary: stringify, remove all
hyphens, strip surrounding whitespace, then require a nine-long digit run;
`none` models the raised invalid-EIN error. -/
def cleanEin (s : List Char) : Option (List Char) :=
  let c := trimChars (s.filter (fun ch => ch ≠ '-'))
  if allDigits c && c.length = 9 then some c else none

/-! ## Organization normalization (`_parse_organization` + pydantic model) -/

/-- The fields of `NonprofitOrganization` that the claims exercise.  The
remaining pydantic fields (`strein`, addresses, `ntee_code`, URLs,
`subseccd` after its int-to-string coercion, `updated` after its
ISO-timestamp reinterpretation) are optional pass-throughs that cannot make
construction fail and are not mentioned by any claim. -/
structure NonprofitOrganization where
  ein : List Char
  name : String
deriving DecidableEq, Repr

/-- Raw upstream organization fragment, restricted to the claim-relevant
fields.  `ein := none` models the key being absent. -/
structure RawOrg where
  ein : Option PyVal
  name : Option String
deriving DecidableEq, Repr

/-- The `ein` conversion step of `_parse_organization`: a truthy int or
string value is stringified and zero-filled to nine characters; anything
else is left untouched. -/
def convertEin (e : Option PyVal) : Option PyVal :=
  match e with
  | some v =>
      if pyTruthy v then
        match v with
        | .vint n => some (.vstr (zfill (toString n).data 9))
        | .vstr s => some (.vstr (zfill s 9))
        | other => some other
      else e
  | none => none

/-- Embedding of `_parse_organization`: the `convertEin` step followed by pydantic
construction with the `validate_ein` field validator.  `Except.error`
models the `ProPublicaAPIError` raised from a caught `ValidationError`. -/
def parseOrganization (raw : RawOrg) : Except String NonprofitOrganization :=
  match raw.name with
  | none => .error "field required: name"
  | some nm =>
      match convertEin raw.ein with
      | some (.vstr s) =>
          -- validate_ein: a truthy value must be nine digits after hyphen removal
          if !s.isEmpty && !nineDigits (s.filter (fun c => c ≠ '-')) then
            .error "EIN must be 9 digits"
          else .ok { ein := s, name := nm }
      | _ => .error "field required: ein"

/-! ## Filing normalization (`_parse_filing` + pydantic `Filing` model) -/

/-- Canonical filing entity (the pydantic `Filing` model restricted to the
fields the source populates from upstream fragments; `raw_data` omitted). -/
structure Filing where
  ein : List Char
  tax_year : Option Int
  form_type : Option (List Char)
  pdf_url : Option String
  totrevenue : Option ℚ
  totfuncexpns : Option ℚ
  totassetsend : Option ℚ
  totliabend : Option ℚ
  filing_date : Option String
deriving DecidableEq, Repr

/-- Raw upstream filing fragment after the caller injected the cleaned EIN
(done by `get_organization_filings` before parsing each fragment).
`none` on a field models the key being absent. -/
structure RawFiling where
  ein : List Char
  tax_prd_yr : Option PyVal
  tax_prd : Option PyVal
  formtype : Option PyVal
  form_type : Option PyVal
  pdf_url : Option String
  totrevenue : Option PyVal
  totfuncexpns : Option PyVal
  totassetsend : Option PyVal
  totliabend : Option PyVal
  filing_date : Option String
deriving DecidableEq, Repr

/-- Monetary-field coercion in `_parse_filing`: keys that are present and
non-null go through `float(...)`, with `ValueError`/`TypeError` caught and
the field set to `None`; absent or null keys stay absent. -/
def coerceMoney : Option PyVal → Option ℚ
  | none => none
  | some .vnone => none
  | some (.vint n) => some (n : ℚ)
  | some (.vfloat q) => some q
  | some (.vstr s) => pyFloat s

/-- Tax-year derivation in `_parse_filing`: a present `tax_prd_yr` key is
popped into `tax_year` (even when null); otherwise a truthy `tax_prd` of
length ≥ 4 has its first four characters parsed with `int(...)`
(`ValueError` caught into a null `tax_year`).  The result is the value of
the `tax_year` key handed to pydantic, `none` meaning the key is absent. -/
def deriveTaxYear (raw : RawFiling) : Option PyVal :=
  match raw.tax_prd_yr with
  | some v => some v
  | none =>
      match raw.tax_prd with
      | some v =>
          if pyTruthy v then
            let s := pyStr v
            if 4 ≤ s.length then
              match pyInt (s.take 4) with
              | some y => some (.vint y)
              | none => some .vnone
            else none
          else none
      | none => none

/-- Embedding of `_convert_form_type`: fixed lookup table from the integer codes, any
other value defaulting to `"990"`. -/
def convertFormType : PyVal → List Char
  | .vint 0 => ['9', '9', '0']
  | .vint 1 => ['9', '9', '0', 'E', 'Z']
  | .vint 2 => ['9', '9', '0', 'P', 'F']
  | .vint 3 => ['9', '9', '0', 'T']
  | _ => ['9', '9', '0']

/-- Form-type step of `_parse_filing`: a present `formtype` key is always
translated; otherwise an integer `form_type` is translated; otherwise the
`form_type` value is left as-is. -/
def deriveFormType (raw : RawFiling) : Option PyVal :=
  match raw.formtype with
  | some v => some (.vstr (convertFormType v))
  | none =>
      match raw.form_type with
      | some (.vint n) => some (.vstr (convertFormType (.vint n)))
      | other => other

/-- Pydantic lax coercion into `Optional[int]` (for `Filing.tax_year`):
ints pass, null and absent give `none`, integer strings are parsed,
integral floats truncate, anything else is a `ValidationError`. -/
def pydanticOptInt : Option PyVal → Except String (Option Int)
  | none => .ok none
  | some .vnone => .ok none
  | some (.vint n) => .ok (some n)
  | some (.vstr s) =>
      match pyInt s with
      | some n => .ok (some n)
      | none => .error "value is not a valid integer"
  | some (.vfloat q) =>
      if q.den = 1 then .ok (some q.num) else .error "value is not a valid integer"

/-- Pydantic coercion into `Optional[str]` (for `Filing.form_type`). -/
def pydanticOptStr : Option PyVal → Except String (Option (List Char))
  | none => .ok none
  | some .vnone => .ok none
  | some (.vstr s) => .ok (some s)
  | some _ => .error "value is not a valid string"

/-- Embedding of `_parse_filing`: per-field monetary coercion, tax-year derivation,
form-type translation, then pydantic `Filing(**filing_data)`.
`Except.error` models the `ProPublicaAPIError` raised from a caught
`ValidationError`. -/
def parseFiling (raw : RawFiling) : Except String Filing := do
  let ty ← pydanticOptInt (deriveTaxYear raw)
  let ft ← pydanticOptStr (deriveFormType raw)
  .ok { ein := raw.ein
        tax_year := ty
        form_type := ft
        pdf_url := raw.pdf_url
        totrevenue := coerceMoney raw.totrevenue
        totfuncexpns := coerceMoney raw.totfuncexpns
        totassetsend := coerceMoney raw.totassetsend
        totliabend := coerceMoney raw.totliabend
        filing_date := raw.filing_date }

/-! ## Search (`search_organizations` and the reference constant sets) -/

/-- The `US_STATES` list from `models.py` (50 states, DC, and ZZ for foreign). -/
def US_STATES : List String :=
  ["AL", "AK", "AZ", "AR", "CA", "CO", "CT", "DE", "FL", "GA",
   "HI", "ID", "IL", "IN", "IA", "KS", "KY", "LA", "ME", "MD",
   "MA", "MI", "MN", "MS", "MO", "MT", "NE", "NV", "NH", "NJ",
   "NM", "NY", "NC", "ND", "OH", "OK", "OR", "PA", "RI", "SC",
   "SD", "TN", "TX", "UT", "VT", "VA", "WA", "WV", "WI", "WY",
   "DC", "ZZ"]

/-- The keys of `NTEE_CATEGORIES` from `models.py`. -/
def NTEE_KEYS : List Int := [1, 2, 3, 4, 5, 6, 7, 8, 9, 10]

/-- The keys of `SUBSECTION_CODES` from `models.py`. -/
def SUBSECTION_KEYS : List Int :=
  [2, 3, 4, 5, 6, 7, 8, 9, 10, 11, 12, 13, 14, 15, 16, 17, 18, 19,
   21, 22, 23, 25, 26, 27, 28, 92]

/-- Python `str.upper()` (ASCII). -/
def strUpper (s : String) : String := s.map Char.toUpper

/-- Arguments of `ProPublicaClient.search_organizations`. -/
structure SearchArgs where
  query : Option String
  state : Option String
  ntee_category : Option Int
  subsection_code : Option Int
  page : Int
  limit : Option Int
deriving DecidableEq, Repr

/-- The query-parameter dict built by `search_organizations` (insertion
order preserved, values rendered as strings), or the
`ProPublicaAPIError` raised by a filter-validation failure. -/
def buildSearchParams (a : SearchArgs) : Except String (List (String × String)) := do
  let p0 : List (String × String) := []
  let p1 := match a.query with
    | some q => if q ≠ "" then p0 ++ [("q", q)] else p0
    | none => p0
  let p2 := if 0 < a.page then p1 ++ [("page", toString a.page)] else p1
  let p3 ← match a.state with
    | some s =>
        if s ≠ "" then
          if strUpper s ∈ US_STATES then
            Except.ok (p2 ++ [("state[id]", strUpper s)])
          else Except.error ("Invalid state code: " ++ s)
        else Except.ok p2
    | none => Except.ok p2
  let p4 ← match a.ntee_category with
    | some n =>
        if n ≠ 0 then
          if n ∈ NTEE_KEYS then Except.ok (p3 ++ [("ntee[id]", toString n)])
          else Except.error "Invalid NTEE category"
        else Except.ok p3
    | none => Except.ok p3
  match a.subsection_code with
  | some c =>
      if c ≠ 0 then
        if c ∈ SUBSECTION_KEYS then Except.ok (p4 ++ [("c_code[id]", toString c)])
        else Except.error "Invalid subsection code"
      else Except.ok p4
  | none => Except.ok p4

/-- Raw upstream search payload: the organization fragments plus the
bookkeeping fields read with `data.get(key, default)` (`none` = key
absent) and the pass-through strings. -/
structure RawSearchData where
  organizations : List RawOrg
  total_results : Option Int
  num_pages : Option Int
  cur_page : Option Int
  per_page : Option Int
  page_offset : Option Int
  search_query : Option String
  selected_state : Option String
  selected_ntee : Option String
  selected_c_code : Option String
deriving DecidableEq, Repr

/-- The pydantic `SearchResult` model. -/
structure SearchResult where
  total_results : Int
  num_pages : Int
  cur_page : Int
  per_page : Int
  page_offset : Int
  search_query : Option String
  selected_state : Option String
  selected_ntee : Option String
  selected_c_code : Option String
  organizations : List NonprofitOrganization
deriving DecidableEq, Repr

/-- Embedding of `search_organizations`: validate filters and build the params dict,
issue the request (the upstream response is the `data` argument), parse
each organization fragment independently skipping the invalid ones, and
assemble the `SearchResult` with the upstream bookkeeping numbers. -/
def searchOrganizations (a : SearchArgs) (data : RawSearchData) :
    Except String SearchResult := do
  let _params ← buildSearchParams a
  let orgs := data.organizations.filterMap (fun od => (parseOrganization od).toOption)
  .ok { total_results := data.total_results.getD 0
        num_pages := data.num_pages.getD 0
        cur_page := data.cur_page.getD 0
        per_page := data.per_page.getD 25
        page_offset := data.page_offset.getD 0
        search_query := data.search_query
        selected_state := data.selected_state
        selected_ntee := data.selected_ntee
        selected_c_code := data.selected_c_code
        organizations := orgs }

/-! ## RateLimiter -/

/-- One step of `RateLimiter.acquire`, with the clock passed explicitly:
given the configuration, the tracked timestamps and the current time,
returns the slept duration and the new tracked-timestamp list, or `none`
for the `ValueError` Python raises on `min([])` (reachable only when
`maxRequests = 0`).  The `asyncio.sleep` is modelled by reporting the wait;
the appended timestamp is the one taken before the sleep, exactly as in
the source. -/
def acquireModel (maxRequests : Nat) (timeWindow : ℚ) (requests : List ℚ)
    (now : ℚ) : Option (ℚ × List ℚ) :=
  let pruned := requests.filter (fun t => now - t < timeWindow)
  if maxRequests ≤ pruned.length then
    match pruned.min? with
    | none => none
    | some oldest =>
        let wait := timeWindow - (now - oldest)
        some ((if 0 < wait then wait else 0), pruned ++ [now])
  else some (0, pruned ++ [now])

/-! ## HTTP request executor (`_make_request`) -/

/-- Outcome of one `client.get` + `raise_for_status` + `response.json()`
round trip, as seen by the exception handlers of `_make_request`. -/
inductive HttpOutcome where
  | okJson
  | okBadJson
  | statusErr (code : Nat)
  | netErr
deriving DecidableEq, Repr

/-- The `ProPublicaAPIError` surfaced by `_make_request` (message text
abbreviated; the source interpolates the response body). -/
structure ApiError where
  message : String
  status_code : Option Nat
deriving DecidableEq, Repr

/-- Final outcome of `_make_request`. -/
inductive ReqResult where
  | ok
  | err (e : ApiError)
deriving DecidableEq, Repr

/-- Observable trace of one `_make_request` call: final result, the
backoff sleeps performed in order, and the number of HTTP requests
issued. -/
structure ReqTrace where
  result : ReqResult
  sleeps : List Nat
  requests : Nat
deriving DecidableEq, Repr

/-- Embedding of `_make_request` with `budget = max_retries - retry_count` as the
structural measure; `resp k` is the outcome of the request issued with
`retry_count = k`.  A server-error status (≥ 500) or a network error with
retries remaining sleeps `2 ^ retry_count` seconds and recurses with
`retry_count + 1`; a client-error status fails immediately carrying the
status code; a JSON parse failure fails immediately without a status. -/
def makeRequestAux (resp : Nat → HttpOutcome) : Nat → Nat → ReqTrace
  | k, budget =>
    match resp k with
    | .okJson => ⟨.ok, [], 1⟩
    | .okBadJson => ⟨.err ⟨"Invalid JSON response", none⟩, [], 1⟩
    | .statusErr c =>
        match budget with
        | 0 => ⟨.err ⟨"HTTP error", some c⟩, [], 1⟩
        | b + 1 =>
            if 500 ≤ c then
              let t := makeRequestAux resp (k + 1) b
              ⟨t.result, 2 ^ k :: t.sleeps, t.requests + 1⟩
            else ⟨.err ⟨"HTTP error", some c⟩, [], 1⟩
    | .netErr =>
        match budget with
        | 0 => ⟨.err ⟨"Request failed", none⟩, [], 1⟩
        | b + 1 =>
            let t := makeRequestAux resp (k + 1) b
            ⟨t.result, 2 ^ k :: t.sleeps, t.requests + 1⟩

/-- Embedding of `_make_request` entered with `retry_count = 0`. -/
def makeRequest (maxRetries : Nat) (resp : Nat → HttpOutcome) : ReqTrace :=
  makeRequestAux resp 0 maxRetries

/-! ## Most recent PDF filing -/

/-- A filing whose `pdf_url` is present and non-empty. -/
def filingHasPdf (f : Filing) : Bool :=
  match f.pdf_url with
  | some u => u ≠ ""
  | none => false

/-- Tax-year comparison for the descending sort: `a` sorts at or before
`b`, a missing year sorting as lowest. -/
def yearGe (a b : Option Int) : Bool :=
  match a, b with
  | _, none => true
  | none, some _ => false
  | some x, some y => y ≤ x

/-- Insertion step of the stable descending-by-tax-year sort. -/
def insertFilingDesc (f : Filing) : List Filing → List Filing
  | [] => [f]
  | g :: gs =>
      if yearGe f.tax_year g.tax_year then f :: g :: gs
      else g :: insertFilingDesc f gs

/-- Stable sort of filings by tax year descending, missing year lowest. -/
def sortFilingsDesc : List Filing → List Filing
  | [] => []
  | f :: fs => insertFilingDesc f (sortFilingsDesc fs)

/-- The record `get_most_recent_pdf_filing` returns for a hit. -/
structure PdfFilingInfo where
  organization_name : String
  tax_year : Option Int
  form_type : Option (List Char)
  pdf_url : Option String
  filing_date : Option String
deriving DecidableEq, Repr

/-- Modelled from the spec: `get_most_recent_pdf_filing`, the api-client
method behind the `get_most_recent_pdf` tool, is absent from the sources
(only its caller in `server/propublica_mcp/server.py` and its integration
test are present).  Per spec §4.4 it fetches organization and filings,
sorts the filings by `taxYear` descending with a missing year sorting as
lowest, scans in that order for the first filing whose `pdfUrl` is present
and non-empty, and returns it paired with the organization name, or an
absent value (not an error) when no filing has a PDF.  The two fetches are
given here as arguments. -/
def getMostRecentPdfFiling (org : NonprofitOrganization) (filings : List Filing) :
    Option PdfFilingInfo :=
  ((sortFilingsDesc filings).find? filingHasPdf).map fun f =>
    { organization_name := org.name
      tax_year := f.tax_year
      form_type := f.form_type
      pdf_url := f.pdf_url
      filing_date := f.filing_date }

/-! ## Tool boundary (`search_nonprofits` in `server.py`) -/

/-- A Python exception as the tool boundary sees it: `str(e)` and
`type(e).__name__`. -/
structure PyErr where
  message : String
  typeName : String
deriving DecidableEq, Repr

/-- The JSON string a tool operation returns, by shape: a success payload,
an error object holding only an `error` message, or an error object
holding both `error` and `error_type`.  Every constructor serializes to a
well-formed JSON object via `json.dumps`. -/
inductive ToolResponse where
  | ok (body : SearchResult)
  | errOnly (msg : String)
  | errTyped (msg ty : String)
deriving DecidableEq, Repr

/-- Python `str.isdigit()` (ASCII). -/
def strIsDigit (s : String) : Bool := allDigits s.data

/-- The `search_nonprofits` tool operation.  Input validation happens
first, each failure returning a JSON object carrying only an `error`
message (text abbreviated; the source interpolates the offending value and
the reference sets); then the api-client call runs, whose outcome is the
`clientResult` argument, and any exception it raises is translated into an
object carrying `error` and `error_type`.  The `per_page` cap
(`per_page > 25 → 25`) only shapes the success payload echo and the
client-call argument, neither of which any claim mentions. -/
def searchNonprofitsTool (state ntee_code subsection_code : Option String)
    (clientResult : Except PyErr SearchResult) : ToolResponse :=
  if (match state with
      | some s => s ≠ "" && !(US_STATES.contains s)
      | none => false) then
    .errOnly "Invalid state code"
  else if (match ntee_code with
      | some c => c ≠ "" && (!strIsDigit c ||
          !(NTEE_KEYS.contains ((digitsVal c.data : Nat) : Int)))
      | none => false) then
    .errOnly "Invalid NTEE code"
  else if (match subsection_code with
      | some c => c ≠ "" && (!strIsDigit c ||
          !(SUBSECTION_KEYS.contains ((digitsVal c.data : Nat) : Int)))
      | none => false) then
    .errOnly "Invalid subsection code"
  else
    match clientResult with
    | .ok r => .ok r
    | .error e => .errTyped ("Search failed: " ++ e.message) e.typeName

/-! ## Sample records used by concrete instances -/

/-- A raw filing fragment with every optional key absent. -/
def rawFilingBase : RawFiling :=
  { ein := "123456789".data
    tax_prd_yr := none
    tax_prd := none
    formtype := none
    form_type := none
    pdf_url := none
    totrevenue := none
    totfuncexpns := none
    totassetsend := none
    totliabend := none
    filing_date := none }

/-- A raw search payload with every key absent and no organizations. -/
def rawSearchBase : RawSearchData :=
  { organizations := []
    total_results := none
    num_pages := none
    cur_page := none
    per_page := none
    page_offset := none
    search_query := none
    selected_state := none
    selected_ntee := none
    selected_c_code := none }

/-- Search arguments with no filters, page 0, no limit. -/
def searchArgsBase : SearchArgs :=
  { query := none, state := none, ntee_category := none
    subsection_code := none, page := 0, limit := none }

/-! ## C10 — the upstream request does not depend on `limit` -/

/-- C10: two calls to `search_organizations` whose arguments differ only in
the `limit` parameter build the identical query-parameter dict, and (for a
fixed upstream response) produce the identical `SearchResult`: no query
parameter and no part of the result is ever derived from `limit`. -/
theorem c10_limit_noninterference (q st : Option String) (nt sc : Option Int)
    (pg : Int) (l₁ l₂ : Option Int) (d : RawSearchData) :
    buildSearchParams ⟨q, st, nt, sc, pg, l₁⟩ = buildSearchParams ⟨q, st, nt, sc, pg, l₂⟩ ∧
    searchOrganizations ⟨q, st, nt, sc, pg, l₁⟩ d = searchOrganizations ⟨q, st, nt, sc, pg, l₂⟩ d :=
  ⟨rfl, rfl⟩

/-! ## C6 — monetary coercion is independently fail-soft -/

/-- C6: each of the four monetary filing fields is coerced independently
and fail-softly: an int or float yields that number, a string yields
exactly what Python float-parsing yields (the denoted value for numeric
strings, absent for non-numeric ones, never a fault), and replacing any
one monetary field of a raw filing changes only that field of the parsed
record — one malformed monetary field never invalidates the rest. -/
theorem c6_money_fail_soft :
    (∀ n : Int, coerceMoney (some (.vint n)) = some (n : ℚ)) ∧
    (∀ q : ℚ, coerceMoney (some (.vfloat q)) = some q) ∧
    (∀ s : List Char, coerceMoney (some (.vstr s)) = pyFloat s) ∧
    (coerceMoney (some (.vstr "950000".data)) = some 950000 ∧
      coerceMoney (some (.vstr "abc".data)) = none) ∧
    (∀ (raw : RawFiling) (v : Option PyVal),
      parseFiling { raw with totrevenue := v } =
        (parseFiling raw).map (fun f => { f with totrevenue := coerceMoney v }) ∧
      parseFiling { raw with totfuncexpns := v } =
        (parseFiling raw).map (fun f => { f with totfuncexpns := coerceMoney v }) ∧
      parseFiling { raw with totassetsend := v } =
        (parseFiling raw).map (fun f => { f with totassetsend := coerceMoney v }) ∧
      parseFiling { raw with totliabend := v } =
        (parseFiling raw).map (fun f => { f with totliabend := coerceMoney v })) := by
  refine ⟨fun n => rfl, fun q => rfl, fun s => rfl, ⟨by decide, by decide⟩, ?_⟩
  intro raw v
  refine ⟨?_, ?_, ?_, ?_⟩ <;>
  · simp only [parseFiling, deriveTaxYear, deriveFormType]
    cases pydanticOptInt (match raw.tax_prd_yr with
      | some v => some v
      | none => match raw.tax_prd with
        | some v =>
            if pyTruthy v = true then
              if 4 ≤ (pyStr v).length then
                match pyInt ((pyStr v).take 4) with
                | some y => some (.vint y)
                | none => some .vnone
              else none
            else none
        | none => none) <;>
    cases pydanticOptStr (match raw.formtype with
      | some v => some (.vstr (convertFormType v))
      | none => match raw.form_type with
        | some (.vint n) => some (.vstr (convertFormType (.vint n)))
        | other => other) <;>
    simp [Except.map, Bind.bind, Except.bind]

/-! ## C5 — tax-year derivation priority -/

/-- C5: the tax year of a parsed filing is exactly the derived value: a
present explicit `tax_prd_yr` key takes priority, otherwise the first four
characters of a truthy `YYYYMM`-format `tax_prd` are parsed as an integer,
otherwise the year is absent.  Concretely, `tax_prd_yr = 2019` yields
2019, `tax_prd = 202212` alone yields 2022, and neither yields an absent
tax year. -/
theorem c5_tax_year_priority :
    (∀ (raw : RawFiling) (f : Filing), parseFiling raw = .ok f →
      pydanticOptInt (deriveTaxYear raw) = .ok f.tax_year) ∧
    (∀ (raw : RawFiling) (v : PyVal), raw.tax_prd_yr = some v →
      deriveTaxYear raw = some v) ∧
    (∀ (raw : RawFiling) (v : PyVal) (y : Int), raw.tax_prd_yr = none →
      raw.tax_prd = some v → pyTruthy v = true → 4 ≤ (pyStr v).length →
      pyInt ((pyStr v).take 4) = some y → deriveTaxYear raw = some (.vint y)) ∧
    (∀ raw : RawFiling, raw.tax_prd_yr = none → raw.tax_prd = none →
      deriveTaxYear raw = none) ∧
    ((parseFiling { rawFilingBase with
        tax_prd_yr := some (.vint 2019), tax_prd := some (.vint 202212) }).map

        Filing.tax_year = .ok (some 2019)) ∧
    ((parseFiling { rawFilingBase with tax_prd := some (.vint 202212) }).map
      Filing.tax_year = .ok (some 2022)) ∧
    ((parseFiling rawFilingBase).map Filing.tax_year = .ok none) := by
  refine ⟨?_, ?_, ?_, ?_, rfl, rfl, rfl⟩
  · intro raw f h
    simp only [parseFiling, Bind.bind, Except.bind] at h
    cases h1 : pydanticOptInt (deriveTaxYear raw) with
    | error e => rw [h1] at h; exact absurd h (by simp)
    | ok ty =>
        rw [h1] at h
        cases h2 : pydanticOptStr (deriveFormType raw) with
        | error e => rw [h2] at h; exact absurd h (by simp)
        | ok ft =>
            rw [h2] at h
            simp only [Except.ok.injEq] at h
            subst h
            rfl
  · intro raw v h
    simp [deriveTaxYear, h]
  · intro raw v y h0 h1 h2 h3 h4
    simp [deriveTaxYear, h0, h1, h2, h3, h4]
  · intro raw h0 h1
    simp [deriveTaxYear, h0, h1]

/-- Witness for the hypotheses of `c5_tax_year_priority`: the priority
rules evaluated on the concrete 2019 / 202212 records. -/
theorem c5_tax_year_priority_witness :
    deriveTaxYear { rawFilingBase with
        tax_prd_yr := some (.vint 2019), tax_prd := some (.vint 202212) } =
      some (.vint 2019) ∧
    deriveTaxYear { rawFilingBase with tax_prd := some (.vint 202212) } =
      some (.vint 2022) ∧
    deriveTaxYear rawFilingBase = none ∧
    pydanticOptInt (deriveTaxYear { rawFilingBase with
        tax_prd_yr := some (.vint 2019) }) = .ok (some 2019) :=
  ⟨c5_tax_year_priority.2.1 _ (.vint 2019) rfl,
   c5_tax_year_priority.2.2.1 _ (.vint 202212) 2022 rfl rfl (by decide)
     (by decide) (by decide),
   c5_tax_year_priority.2.2.2.1 rawFilingBase rfl rfl,
   c5_tax_year_priority.1 _
     { ein := "123456789".data, tax_year := some 2019, form_type := none,
       pdf_url := none, totrevenue := none, totfuncexpns := none,
       totassetsend := none, totliabend := none, filing_date := none }
     rfl⟩

/-! ## C4 — retry policy of `_make_request` -/

/-- C4: an HTTP status ≥ 500 with `attempt < maxRetries` sleeps
`2 ^ attempt` seconds and retries with `attempt + 1`; an error status
< 500 fails immediately without retry, carrying the status code; a 500
followed by a 200 gives exactly one retry and success; persistent 500
responses with `maxRetries = 3` give a final `UpstreamRequestFailed`
carrying status 500 after exactly three retries (backoffs 1 s, 2 s, 4 s,
four requests issued). -/
theorem c4_retry_policy :
    (∀ (resp : Nat → HttpOutcome) (maxR k c : Nat), resp k = .statusErr c →
      500 ≤ c → k < maxR →
      makeRequestAux resp k (maxR - k) =
        { result := (makeRequestAux resp (k + 1) (maxR - (k + 1))).result
          sleeps := 2 ^ k :: (makeRequestAux resp (k + 1) (maxR - (k + 1))).sleeps
          requests := (makeRequestAux resp (k + 1) (maxR - (k + 1))).requests + 1 }) ∧
    (∀ (resp : Nat → HttpOutcome) (budget k c : Nat), resp k = .statusErr c →
      c < 500 →
      makeRequestAux resp k budget =
        { result := .err { message := "HTTP error", status_code := some c }
          sleeps := [], requests := 1 }) ∧
    (makeRequest 3 (fun n => if n = 0 then .statusErr 500 else .okJson) =
      { result := .ok, sleeps := [1], requests := 2 }) ∧
    (makeRequest 3 (fun _ => .statusErr 500) =
      { result := .err { message := "HTTP error", status_code := some 500 }
        sleeps := [1, 2, 4], requests := 4 }) := by
  refine ⟨?_, ?_, by decide, by decide⟩
  · intro resp maxR k c h hc hk
    have hb : maxR - k = (maxR - (k + 1)) + 1 := by omega
    rw [hb]
    simp only [makeRequestAux, h]
    rw [if_pos hc]
  · intro resp budget k c h hc
    cases budget <;>
    · simp only [makeRequestAux, h]
      try rw [if_neg (by omega)]

/-- Witness for the hypotheses of `c4_retry_policy`: the retry step on a
concrete 500 response, and the immediate failure on a concrete 404. -/
theorem c4_retry_policy_witness :
    makeRequestAux (fun _ => .statusErr 500) 0 (3 - 0) =
      { result := (makeRequestAux (fun _ => .statusErr 500) 1 (3 - 1)).result
        sleeps := 2 ^ 0 :: (makeRequestAux (fun _ => .statusErr 500) 1 (3 - 1)).sleeps
        requests := (makeRequestAux (fun _ => .statusErr 500) 1 (3 - 1)).requests + 1 } ∧
    makeRequestAux (fun _ => .statusErr 404) 0 3 =
      { result := .err { message := "HTTP error", status_code := some 404 }
        sleeps := [], requests := 1 } :=
  ⟨c4_retry_policy.1 (fun _ => .statusErr 500) 3 0 500 rfl (by decide) (by decide),
   c4_retry_policy.2.1 (fun _ => .statusErr 404) 3 0 404 rfl (by decide)⟩

/-! ## C7 — `organizations.length ≤ perPage` -/

/-- Counterexample for C7: the source never enforces
`organizations.length <= perPage`.  An upstream payload reporting
`per_page = 1` while carrying two valid organization fragments yields a
`SearchResult` with two organizations, so the claimed invariant fails. -/
theorem c7_per_page_counterexample :
    ¬ (∀ (a : SearchArgs) (d : RawSearchData) (r : SearchResult),
        searchOrganizations a d = .ok r →
        (r.organizations.length : Int) ≤ r.per_page) := by
  intro h
  have := h searchArgsBase
    { rawSearchBase with
      per_page := some 1
      organizations :=
        [{ ein := some (.vstr "123456789".data), name := some "A" },
         { ein := some (.vstr "987654321".data), name := some "B" }] }
    { total_results := 0, num_pages := 0, cur_page := 0, per_page := 1
      page_offset := 0, search_query := none, selected_state := none
      selected_ntee := none, selected_c_code := none
      organizations :=
        [{ ein := "123456789".data, name := "A" },
         { ein := "987654321".data, name := "B" }] }
    rfl
  simp at this

/-- C7 amended: the number of organizations in a `SearchResult` is at most
the number of organization fragments in the upstream payload (parsing only
ever drops entries); consequently `organizations.length <= perPage` holds
whenever the upstream payload itself carries at most `per_page` fragments,
but the code does not enforce it for payloads that carry more. -/
theorem c7_per_page_bound (a : SearchArgs) (d : RawSearchData) (r : SearchResult)
    (h : searchOrganizations a d = .ok r) :
    r.organizations.length ≤ d.organizations.length ∧
    ((d.organizations.length : Int) ≤ d.per_page.getD 25 →
      (r.organizations.length : Int) ≤ r.per_page) := by
  simp only [searchOrganizations, Bind.bind, Except.bind] at h
  cases hp : buildSearchParams a with
  | error e => rw [hp] at h; exact absurd h (by simp)
  | ok p =>
      rw [hp] at h
      simp only [Except.ok.injEq] at h
      subst h
      constructor
      · exact List.length_filterMap_le _ _
      · intro hlen
        have hle : (List.filterMap (fun od => (parseOrganization od).toOption)
            d.organizations).length ≤ d.organizations.length :=
          List.length_filterMap_le _ _
        simp only []
        omega

/-- Witness for the hypotheses of `c7_per_page_bound`: a payload with one
valid organization and the default `per_page` of 25. -/
theorem c7_per_page_bound_witness :
    (1 : Nat) ≤ 1 ∧ ((1 : Int) ≤ 25 → (1 : Int) ≤ 25) := by
  have h := c7_per_page_bound searchArgsBase
    { rawSearchBase with
      organizations := [{ ein := some (.vstr "123456789".data), name := some "A" }] }
    { total_results := 0, num_pages := 0, cur_page := 0, per_page := 25
      page_offset := 0, search_query := none, selected_state := none
      selected_ntee := none, selected_c_code := none
      organizations := [{ ein := "123456789".data, name := "A" }] }
    rfl
  simp at h
  exact ⟨le_refl 1, fun _ => by norm_num⟩

/-! ## C8 — invalid organizations are dropped, `totalResults` is upstream -/

/-- C8: `search_organizations` parses each organization fragment
independently, dropping the ones that fail normalization and keeping the
rest in upstream order; it never fails the whole operation once the filter
validation has passed; and `total_results` is the upstream-reported total,
independent of how many fragments were dropped.  Concretely, a payload
with two organizations of which one is missing `name`, reporting
`total_results = 50`, yields exactly one organization and
`total_results = 50`. -/
theorem c8_drop_invalid_keep_total :
    (∀ (a : SearchArgs) (d : RawSearchData) (r : SearchResult),
      searchOrganizations a d = .ok r →
      r.organizations =
        d.organizations.filterMap (fun od => (parseOrganization od).toOption) ∧
      r.total_results = d.total_results.getD 0) ∧
    (∀ (a : SearchArgs) (d : RawSearchData) (p : List (String × String)),
      buildSearchParams a = .ok p →
      ∃ r, searchOrganizations a d = .ok r) ∧
    ((searchOrganizations searchArgsBase
        { rawSearchBase with
          total_results := some 50
          organizations :=
            [{ ein := some (.vstr "123456789".data), name := some "A" },
             { ein := some (.vstr "987654321".data), name := none }] }).toOption.map
      (fun r => (r.organizations, r.total_results)) =
      some ([{ ein := "123456789".data, name := "A" }], 50)) := by
  refine ⟨?_, ?_, rfl⟩
  · intro a d r h
    simp only [searchOrganizations, Bind.bind, Except.bind] at h
    cases hp : buildSearchParams a with
    | error e => rw [hp] at h; exact absurd h (by simp)
    | ok p =>
        rw [hp] at h
        simp only [Except.ok.injEq] at h
        subst h
        exact ⟨rfl, rfl⟩
  · intro a d p hp
    simp only [searchOrganizations, Bind.bind, Except.bind, hp]
    exact ⟨_, rfl⟩

/-- Witness for the hypotheses of `c8_drop_invalid_keep_total`: the
payload of the concrete instance, evaluated through the first two
conjuncts. -/
theorem c8_drop_invalid_keep_total_witness :
    (searchOrganizations searchArgsBase
        { rawSearchBase with
          total_results := some 50
          organizations :=
            [{ ein := some (.vstr "123456789".data), name := some "A" },
             { ein := some (.vstr "987654321".data), name := none }] } =
      .ok { total_results := 50, num_pages := 0, cur_page := 0, per_page := 25
            page_offset := 0, search_query := none, selected_state := none
            selected_ntee := none, selected_c_code := none
            organizations := [{ ein := "123456789".data, name := "A" }] }) ∧
    ({ total_results := 50, num_pages := 0, cur_page := 0, per_page := 25
       page_offset := 0, search_query := none, selected_state := none
       selected_ntee := none, selected_c_code := none
       organizations := [{ ein := "123456789".data, name := "A" }]
       : SearchResult }.organizations =
      [{ ein := "123456789".data, name := "A" }]) ∧
    (∃ r, searchOrganizations searchArgsBase rawSearchBase = .ok r) := by
  refine ⟨rfl, ?_, c8_drop_invalid_keep_total.2.1 searchArgsBase rawSearchBase [] rfl⟩
  have h := c8_drop_invalid_keep_total.1 searchArgsBase
    { rawSearchBase with
      total_results := some 50
      organizations :=
        [{ ein := some (.vstr "123456789".data), name := some "A" },
         { ein := some (.vstr "987654321".data), name := none }] }
    { total_results := 50, num_pages := 0, cur_page := 0, per_page := 25
      page_offset := 0, search_query := none, selected_state := none
      selected_ntee := none, selected_c_code := none
      organizations := [{ ein := "123456789".data, name := "A" }] }
    rfl
  exact h.1

/-! ## C9 — the tool boundary never raises, error responses -/

/-- A failure response (an `error` JSON object rather than a payload). -/
def ToolResponse.isFailure : ToolResponse → Bool
  | .ok _ => false
  | .errOnly _ => true
  | .errTyped _ _ => true

/-- Whether the response carries an `error_type` classification tag. -/
def ToolResponse.hasErrorType : ToolResponse → Bool
  | .errTyped _ _ => true
  | _ => false

/-- The state argument passes the tool-level validation. -/
def validStateArg : Option String → Bool
  | some s => s.isEmpty || US_STATES.contains s
  | none => true

/-- The NTEE-code argument passes the tool-level validation. -/
def validNteeArg : Option String → Bool
  | some c => c.isEmpty || (strIsDigit c &&
      NTEE_KEYS.contains ((digitsVal c.data : Nat) : Int))
  | none => true

/-- The subsection-code argument passes the tool-level validation. -/
def validSubArg : Option String → Bool
  | some c => c.isEmpty || (strIsDigit c &&
      SUBSECTION_KEYS.contains ((digitsVal c.data : Nat) : Int))
  | none => true

/-- A sample successful client result for exercising the tool boundary. -/
def sampleSearchResult : SearchResult :=
  { total_results := 0, num_pages := 0, cur_page := 0, per_page := 25
    page_offset := 0, search_query := none, selected_state := none
    selected_ntee := none, selected_c_code := none, organizations := [] }

/-- Counterexample for C9: an input-validation failure returns a JSON
error object WITHOUT an `error_type` tag.  With an invalid state code
`"XX"` the `search_nonprofits` tool returns `{"error": ...}` only —
a failure response whose JSON carries no `error_type`. -/
theorem c9_error_type_counterexample :
    (searchNonprofitsTool (some "XX") none none (.ok sampleSearchResult)).isFailure
      = true ∧
    (searchNonprofitsTool (some "XX") none none (.ok sampleSearchResult)).hasErrorType
      = false := by
  constructor <;> rfl

/-- C9 amended: every outcome of the tool operation is one of the three
JSON object shapes (success payload, `{error}`, `{error, error_type}`), so
the boundary never raises; every fault raised by the api-client call is
caught and translated into a JSON object carrying both the human-readable
`error` message and the `error_type` classification tag; input-validation
failures short-circuit before the client call and carry only the `error`
message. -/
theorem c9_tool_boundary (st nt sc : Option String)
    (res : Except PyErr SearchResult) :
    (∀ e, res = .error e → validStateArg st = true → validNteeArg nt = true →
      validSubArg sc = true →
      searchNonprofitsTool st nt sc res =
        .errTyped ("Search failed: " ++ e.message) e.typeName) ∧
    (∀ r, res = .ok r → validStateArg st = true → validNteeArg nt = true →
      validSubArg sc = true → searchNonprofitsTool st nt sc res = .ok r) ∧
    (validStateArg st = false →
      searchNonprofitsTool st nt sc res = .errOnly "Invalid state code") ∧
    ((searchNonprofitsTool st nt sc res).isFailure = true →
      (searchNonprofitsTool st nt sc res).hasErrorType = true →
      ∃ e, res = .error e) := by
  have hstate : validStateArg st = true →
      (match st with
        | some s => s ≠ "" && !(US_STATES.contains s)
        | none => false) = false := by
    cases st with
    | none => intro _; rfl
    | some s =>
        intro h
        simp only [validStateArg, Bool.or_eq_true, String.isEmpty_iff] at h
        rcases h with h | h
        · subst h; rfl
        · have hm : s ∈ US_STATES := by simpa using h
          simp [hm]
  have hntee : validNteeArg nt = true →
      (match nt with
        | some c => c ≠ "" && (!strIsDigit c ||
            !(NTEE_KEYS.contains ((digitsVal c.data : Nat) : Int)))
        | none => false) = false := by
    cases nt with
    | none => intro _; rfl
    | some c =>
        intro h
        simp only [validNteeArg, Bool.or_eq_true, String.isEmpty_iff,
          Bool.and_eq_true] at h
        rcases h with h | ⟨h1, h2⟩
        · subst h; rfl
        · have hm : ((digitsVal c.data : Nat) : Int) ∈ NTEE_KEYS := by simpa using h2
          simp [h1, hm]
  have hsub : validSubArg sc = true →
      (match sc with
        | some c => c ≠ "" && (!strIsDigit c ||
            !(SUBSECTION_KEYS.contains ((digitsVal c.data : Nat) : Int)))
        | none => false) = false := by
    cases sc with
    | none => intro _; rfl
    | some c =>
        intro h
        simp only [validSubArg, Bool.or_eq_true, String.isEmpty_iff,
          Bool.and_eq_true] at h
        rcases h with h | ⟨h1, h2⟩
        · subst h; rfl
        · have hm : ((digitsVal c.data : Nat) : Int) ∈ SUBSECTION_KEYS := by simpa using h2
          simp [h1, hm]
  refine ⟨?_, ?_, ?_, ?_⟩
  · intro e he h1 h2 h3
    subst he
    simp only [searchNonprofitsTool, hstate h1, hntee h2, hsub h3,
      Bool.false_eq_true, if_false]
  · intro r hr h1 h2 h3
    subst hr
    simp only [searchNonprofitsTool, hstate h1, hntee h2, hsub h3,
      Bool.false_eq_true, if_false]
  · intro h
    cases st with
    | none => simp [validStateArg] at h
    | some s =>
        simp only [validStateArg, Bool.or_eq_false_iff] at h
        have hne : s ≠ "" := by
          intro hs
          subst hs
          exact absurd h.1 (by decide)
        have hnm : s ∉ US_STATES := by simpa using h.2
        simp only [searchNonprofitsTool]
        rw [if_pos (by simp [hne, hnm])]
  · intro _ htyped
    unfold searchNonprofitsTool at htyped
    split at htyped
    · simp [ToolResponse.hasErrorType] at htyped
    · split at htyped
      · simp [ToolResponse.hasErrorType] at htyped
      · split at htyped
        · simp [ToolResponse.hasErrorType] at htyped
        · cases hres : res with
          | ok r =>
              rw [hres] at htyped
              simp [ToolResponse.hasErrorType] at htyped
          | error e => exact ⟨e, rfl⟩

/-- Witness for the hypotheses of `c9_tool_boundary`: a concrete client
fault is translated to `{error, error_type}`; a concrete validation
failure yields `{error}` only. -/
theorem c9_tool_boundary_witness :
    searchNonprofitsTool (some "CA") none none
        (.error { message := "boom", typeName := "ProPublicaAPIError" }) =
      .errTyped "Search failed: boom" "ProPublicaAPIError" ∧
    searchNonprofitsTool (some "XX") none none
        (.error { message := "boom", typeName := "ProPublicaAPIError" }) =
      .errOnly "Invalid state code" :=
  ⟨(c9_tool_boundary (some "CA") none none
      (.error { message := "boom", typeName := "ProPublicaAPIError" })).1
      { message := "boom", typeName := "ProPublicaAPIError" } rfl
      (by decide) rfl rfl,
   (c9_tool_boundary (some "XX") none none
      (.error { message := "boom", typeName := "ProPublicaAPIError" })).2.2.1
      (by decide)⟩

/-! ## C3 — RateLimiter.acquire -/

/-- Counterexample for C3: `acquire` is not unconditionally failure-free.
With `max_requests = 0` the pruned timestamp list is empty yet its length
is at or above the maximum, and `min(self.requests)` raises `ValueError`
on the empty list — here the `none` result. -/
theorem c3_acquire_counterexample : acquireModel 0 60 [] 0 = none := rfl

/-- C3 amended: provided the configured maximum is at least 1, every
`acquire` first removes the timestamps older than the window, then — when
the count of remaining timestamps is at or above the maximum — suspends
for exactly `window - (now - oldest)` (the time for the oldest remaining
timestamp to exit the window), otherwise proceeds immediately with no
wait; in either case it records the entry timestamp and never fails (with
maximum 0, the first acquire fails computing `min` of the empty list).
With `maxRequests = 2` and `window = 60`, a third acquire while both prior
timestamps are inside the window waits exactly `60 - (now - t₀)` where
`t₀` is the oldest, and a third acquire after the window has elapsed
returns immediately. -/
theorem c3_acquire (maxReq : Nat) (window : ℚ) (reqs : List ℚ) (now : ℚ) :
    (1 ≤ maxReq → ∃ w, acquireModel maxReq window reqs now =
      some (w, reqs.filter (fun t => now - t < window) ++ [now])) ∧
    ((reqs.filter (fun t => now - t < window)).length < maxReq →
      acquireModel maxReq window reqs now =
        some (0, reqs.filter (fun t => now - t < window) ++ [now])) ∧
    (∀ oldest, maxReq ≤ (reqs.filter (fun t => now - t < window)).length →
      (reqs.filter (fun t => now - t < window)).min? = some oldest →
      0 < window - (now - oldest) →
      acquireModel maxReq window reqs now =
        some (window - (now - oldest),
          reqs.filter (fun t => now - t < window) ++ [now])) ∧
    (∀ t₀ t₁ now₂ : ℚ, t₀ ≤ t₁ → now₂ - t₀ < 60 → now₂ - t₁ < 60 →
      acquireModel 2 60 [t₀, t₁] now₂ = some (60 - (now₂ - t₀), [t₀, t₁, now₂])) ∧
    (∀ t₀ t₁ now₂ : ℚ, 60 ≤ now₂ - t₀ → 60 ≤ now₂ - t₁ →
      acquireModel 2 60 [t₀, t₁] now₂ = some (0, [now₂])) := by
  refine ⟨?_, ?_, ?_, ?_, ?_⟩
  · intro hmax
    simp only [acquireModel]
    split
    · next hlen =>
        cases hmin : (reqs.filter (fun t => now - t < window)).min? with
        | none =>
            rw [List.min?_eq_none_iff] at hmin
            rw [hmin] at hlen
            simp at hlen
            omega
        | some oldest => exact ⟨_, rfl⟩
    · exact ⟨0, rfl⟩
  · intro hlen
    simp only [acquireModel]
    rw [if_neg (by omega)]
  · intro oldest hlen hmin hpos
    simp only [acquireModel]
    rw [if_pos hlen, hmin]
    simp only [if_pos hpos]
  · intro t₀ t₁ now₂ h01 h0 h1
    have hf : List.filter (fun t => decide (now₂ - t < 60)) [t₀, t₁] = [t₀, t₁] := by
      simp [List.filter, h0, h1]
    simp only [acquireModel, hf]
    rw [if_pos (by simp)]
    have hmin : List.min? [t₀, t₁] = some t₀ := by
      simp [List.min?, min_eq_left h01]
    rw [hmin]
    have hw : (0 : ℚ) < 60 - (now₂ - t₀) := by linarith
    simp [hw]
  · intro t₀ t₁ now₂ h0 h1
    have hf : List.filter (fun t => decide (now₂ - t < 60)) [t₀, t₁] = [] := by
      simp only [List.filter, decide_eq_true_eq]
      rw [decide_eq_false (by linarith), decide_eq_false (by linarith)]
    simp only [acquireModel, hf]
    rw [if_neg (by simp)]
    simp

/-- Witness for the hypotheses of `c3_acquire`: the concrete third-acquire
scenarios at `maxRequests = 2`, `window = 60`. -/
theorem c3_acquire_witness :
    acquireModel 2 60 [10, 20] 30 = some (60 - (30 - 10), [10, 20, 30]) ∧
    acquireModel 2 60 [10, 20] 90 = some (0, [90]) ∧
    (∃ w, acquireModel 2 60 [10, 20] 30 = some (w,
      [(10 : ℚ), 20].filter (fun t => (30 : ℚ) - t < 60) ++ [30])) ∧
    acquireModel 2 60 [10] 30 =
      some (0, [(10 : ℚ)].filter (fun t => (30 : ℚ) - t < 60) ++ [30]) :=
  ⟨(c3_acquire 2 60 [10, 20] 30).2.2.2.1 10 20 30 (by norm_num) (by norm_num)
     (by norm_num),
   (c3_acquire 2 60 [10, 20] 90).2.2.2.2 10 20 90 (by norm_num) (by norm_num),
   (c3_acquire 2 60 [10, 20] 30).1 (by norm_num),
   (c3_acquire 2 60 [10] 30).2.1 (by norm_num)⟩

/-! ## C1 — most recent PDF filing -/

/-- The comparison `yearGe` is total. -/
lemma yearGe_total (a b : Option Int) : yearGe a b = true ∨ yearGe b a = true := by
  rcases a with _ | x <;> rcases b with _ | y <;> simp [yearGe]
  omega

/-- The comparison `yearGe` is transitive. -/
lemma yearGe_trans {a b c : Option Int} (h1 : yearGe a b = true)
    (h2 : yearGe b c = true) : yearGe a c = true := by
  rcases a with _ | x <;> rcases b with _ | y <;> rcases c with _ | z <;>
    simp_all [yearGe]
  omega

/-- Inserting preserves the multiset of filings. -/
lemma insertFilingDesc_perm (f : Filing) (l : List Filing) :
    (insertFilingDesc f l).Perm (f :: l) := by
  induction l with
  | nil => rfl
  | cons g gs ih =>
      simp only [insertFilingDesc]
      split
      · exact List.Perm.refl _
      · exact ((ih.cons g).trans (List.Perm.swap f g gs))

/-- The descending sort is a permutation of its input. -/
lemma sortFilingsDesc_perm (l : List Filing) : (sortFilingsDesc l).Perm l := by
  induction l with
  | nil => rfl
  | cons f fs ih =>
      exact (insertFilingDesc_perm f (sortFilingsDesc fs)).trans (ih.cons f)

/-- Inserting into a descending-ordered list keeps it ordered. -/
lemma insertFilingDesc_pairwise (f : Filing) (l : List Filing)
    (h : List.Pairwise (fun a b => yearGe a.tax_year b.tax_year = true) l) :
    List.Pairwise (fun a b => yearGe a.tax_year b.tax_year = true)
      (insertFilingDesc f l) := by
  induction l with
  | nil => simp [insertFilingDesc]
  | cons g gs ih =>
      simp only [insertFilingDesc]
      rcases List.pairwise_cons.mp h with ⟨hg, hgs⟩
      split
      · next hfg =>
          refine List.pairwise_cons.mpr ⟨?_, h⟩
          intro x hx
          rcases List.mem_cons.mp hx with hx | hx
          · subst hx; exact hfg
          · exact yearGe_trans hfg (hg x hx)
      · next hfg =>
          have hgf : yearGe g.tax_year f.tax_year = true := by
            rcases yearGe_total f.tax_year g.tax_year with h1 | h1
            · exact absurd h1 hfg
            · exact h1
          refine List.pairwise_cons.mpr ⟨?_, ih hgs⟩
          intro x hx
          have hx2 : x ∈ f :: gs :=
            (insertFilingDesc_perm f gs).mem_iff.mp hx
          rcases List.mem_cons.mp hx2 with hx2 | hx2
          · subst hx2; exact hgf
          · exact hg x hx2

/-- The descending sort is ordered by `yearGe` on tax years. -/
lemma sortFilingsDesc_pairwise (l : List Filing) :
    List.Pairwise (fun a b => yearGe a.tax_year b.tax_year = true)
      (sortFilingsDesc l) := by
  induction l with
  | nil => simp [sortFilingsDesc]
  | cons f fs ih => exact insertFilingDesc_pairwise f (sortFilingsDesc fs) ih

/-- A sample filing for year `y` with the given PDF URL. -/
def mkFiling (y : Int) (pdf : Option String) : Filing :=
  { ein := "123456789".data, tax_year := some y
    form_type := some ['9', '9', '0'], pdf_url := pdf
    totrevenue := none, totfuncexpns := none, totassetsend := none
    totliabend := none, filing_date := none }

/-- A sample organization. -/
def orgSample : NonprofitOrganization :=
  { ein := "123456789".data, name := "Sample Org" }

/-- C1 (spec-modelled): `getMostRecentPdfFiling` scans the filings in
descending tax-year order (the scanned list is a permutation of the input,
ordered by `yearGe`, with a missing year sorting as lowest) and returns
the first filing with a present, non-empty `pdfUrl` paired with the
organization name; when no filing has a PDF it returns an absent value,
not an error.  For filings in years 2023 (no pdfUrl), 2022 (pdfUrl
present), 2021 (pdfUrl present) — in either upstream order — the result
is the 2022 filing. -/
theorem c1_most_recent_pdf :
    (∀ (org : NonprofitOrganization) (filings : List Filing),
      getMostRecentPdfFiling org filings =
        ((sortFilingsDesc filings).find? filingHasPdf).map fun f =>
          { organization_name := org.name, tax_year := f.tax_year
            form_type := f.form_type, pdf_url := f.pdf_url
            filing_date := f.filing_date }) ∧
    (∀ filings : List Filing, (sortFilingsDesc filings).Perm filings) ∧
    (∀ filings : List Filing,
      List.Pairwise (fun a b => yearGe a.tax_year b.tax_year = true)
        (sortFilingsDesc filings)) ∧
    (∀ (org : NonprofitOrganization) (filings : List Filing),
      (∀ f ∈ filings, filingHasPdf f = false) →
      getMostRecentPdfFiling org filings = none) ∧
    (getMostRecentPdfFiling orgSample
        [mkFiling 2023 none, mkFiling 2022 (some "u2022"),
         mkFiling 2021 (some "u2021")] =
      some { organization_name := "Sample Org", tax_year := some 2022
             form_type := some ['9', '9', '0'], pdf_url := some "u2022"
             filing_date := none }) ∧
    (getMostRecentPdfFiling orgSample
        [mkFiling 2021 (some "u2021"), mkFiling 2023 none,
         mkFiling 2022 (some "u2022")] =
      some { organization_name := "Sample Org", tax_year := some 2022
             form_type := some ['9', '9', '0'], pdf_url := some "u2022"
             filing_date := none }) := by
  refine ⟨fun org filings => rfl, sortFilingsDesc_perm, sortFilingsDesc_pairwise,
    ?_, rfl, rfl⟩
  intro org filings h
  suffices hnone : List.find? filingHasPdf (sortFilingsDesc filings) = none by
    simp [getMostRecentPdfFiling, hnone]
  rw [List.find?_eq_none]
  intro f hf
  have : f ∈ filings := (sortFilingsDesc_perm filings).subset hf
  simp [h f this]

/-- Witness for the hypothesis of `c1_most_recent_pdf`: an organization
whose only filing has no PDF yields the absent value. -/
theorem c1_most_recent_pdf_witness :
    getMostRecentPdfFiling orgSample [mkFiling 2023 none] = none :=
  c1_most_recent_pdf.2.2.2.1 orgSample [mkFiling 2023 none]
    (by intro f hf; simp only [List.mem_singleton] at hf; subst hf; rfl)

/-! ## C2 — EIN normalization -/

/-- A decimal digit is never whitespace. -/
lemma isDigit_not_isWhitespace {c : Char} (h : c.isDigit = true) :
    c.isWhitespace = false := by
  by_contra hw
  rw [Bool.not_eq_false] at hw
  simp only [Char.isWhitespace, Bool.or_eq_true, decide_eq_true_eq] at hw
  rcases hw with ((hc | hc) | hc) | hc <;> subst hc <;> simp [Char.isDigit] at h

/-- Lemma: `dropWhile` skips over a block of characters all satisfying `p`. -/
lemma dropWhile_append_all {p : Char → Bool} {l₁ l₂ : List Char}
    (h : ∀ c ∈ l₁, p c = true) :
    (l₁ ++ l₂).dropWhile p = l₂.dropWhile p := by
  induction l₁ with
  | nil => rfl
  | cons c t ih =>
      rw [List.cons_append, List.dropWhile_cons,
        if_pos (h c (List.mem_cons_self c t))]
      exact ih fun x hx => h x (List.mem_cons_of_mem c hx)

/-- Lemma: `dropWhile` is the identity on a list whose head fails `p`. -/
lemma dropWhile_head_false {p : Char → Bool} {c : Char} {t : List Char}
    (h : p c = false) : (c :: t).dropWhile p = c :: t := by
  simp [List.dropWhile_cons, h]

/-- Stripping whitespace around a nonempty all-digit run recovers the run. -/
lemma trimChars_ws_digits_ws {pre d post : List Char}
    (hpre : ∀ c ∈ pre, c.isWhitespace = true)
    (hpost : ∀ c ∈ post, c.isWhitespace = true)
    (hd : ∀ c ∈ d, c.isDigit = true) (hne : d ≠ []) :
    trimChars (pre ++ d ++ post) = d := by
  unfold trimChars
  rw [List.append_assoc, dropWhile_append_all hpre]
  cases hdc : d with
  | nil => exact absurd hdc hne
  | cons c t =>
      rw [List.cons_append,
        dropWhile_head_false (isDigit_not_isWhitespace
          (hd c (by rw [hdc]; exact List.mem_cons_self c t)))]
      unfold dropTrailing
      rw [← List.cons_append, ← hdc, List.reverse_append,
        dropWhile_append_all fun x hx => hpost x (List.mem_reverse.mp hx)]
      cases hdr : d.reverse with
      | nil => rw [List.reverse_eq_nil_iff] at hdr; exact absurd hdr hne
      | cons c2 t2 =>
          rw [dropWhile_head_false (isDigit_not_isWhitespace
            (hd c2 (List.mem_reverse.mp (by rw [hdr]; exact List.mem_cons_self c2 t2))))]
          rw [← hdr, List.reverse_reverse]

/-- Counterexample for C2: a hyphenated EIN string survives construction
with the hyphen retained.  For the raw value `"12-3456789"` (string of
length 10), `_parse_organization` zero-fills nothing (length ≥ 9) and
`validate_ein` only checks the hyphen-stripped form, so the stored `ein`
field of the constructed organization is the 10-character hyphenated
string, not a 9-digit string. -/
theorem c2_ein_counterexample :
    parseOrganization { ein := some (.vstr "12-3456789".data), name := some "X" } =
      .ok { ein := "12-3456789".data, name := "X" } ∧
    ({ ein := "12-3456789".data, name := "X" } : NonprofitOrganization).ein.length
      = 10 := by
  constructor <;> rfl

/-- C2 amended: after normalization the stored `ein` is the zero-filled
input, which either is the empty string (a falsy value skips the regex
check) or reduces to exactly nine digits after removing hyphens — but may
itself retain hyphens; construction fails whenever the converted EIN is a
nonempty string that does not reduce to nine digits after hyphen removal
(or is missing or not a string).  Separately, the operation-boundary EIN
cleaning (hyphen removal, whitespace strip, 9-digit check) maps every valid
9-digit EIN presented with any combination of hyphen placement and
surrounding whitespace to the identical 9-digit string. -/
theorem c2_ein_normalization :
    (∀ (raw : RawOrg) (org : NonprofitOrganization),
      parseOrganization raw = .ok org →
      org.ein = [] ∨ nineDigits (org.ein.filter (fun c => c ≠ '-')) = true) ∧
    (∀ (raw : RawOrg) (nm : String) (s : List Char), raw.name = some nm →
      convertEin raw.ein = some (.vstr s) → s ≠ [] →
      nineDigits (s.filter (fun c => c ≠ '-')) = false →
      parseOrganization raw = .error "EIN must be 9 digits") ∧
    (∀ d pre mid post : List Char, d.length = 9 → d.all Char.isDigit = true →
      (∀ c ∈ pre, c.isWhitespace = true) → (∀ c ∈ post, c.isWhitespace = true) →
      mid.filter (fun c => c ≠ '-') = d →
      cleanEin (pre ++ mid ++ post) = some d) := by
  refine ⟨?_, ?_, ?_⟩
  · intro raw org h
    unfold parseOrganization at h
    cases hn : raw.name with
    | none => simp only [hn] at h; exact absurd h (by simp)
    | some nm =>
        simp only [hn] at h
        split at h
        · rename_i s heq
          split at h
          · exact absurd h (by simp)
          · rename_i hbad
            simp only [Except.ok.injEq] at h
            subst h
            simp only [Bool.and_eq_true, Bool.not_eq_true', Bool.not_eq_true,
              not_and, Bool.not_eq_false] at hbad
            by_cases hs : s.isEmpty = true
            · exact Or.inl (List.isEmpty_iff.mp hs)
            · exact Or.inr (hbad (by simpa using hs))
        · exact absurd h (by simp)
  · intro raw nm s hn hc hne hbad
    unfold parseOrganization
    simp only [hn, hc]
    show (if (!s.isEmpty && !nineDigits (s.filter (fun c => c ≠ '-'))) = true then
        Except.error "EIN must be 9 digits"
      else (Except.ok { ein := s, name := nm } :
        Except String NonprofitOrganization)) = Except.error "EIN must be 9 digits"
    rw [if_pos (by
      have hbad2 : nineDigits (List.filter (fun c => !decide (c = '-')) s) = false := by
        simpa [ne_eq, decide_not] using hbad
      simp [List.isEmpty_iff, hne, hbad2])]
  · intro d pre mid post hlen hdig hpre hpost hmid
    have hfilter : (pre ++ mid ++ post).filter (fun c => c ≠ '-') =
        pre ++ d ++ post := by
      rw [List.filter_append, List.filter_append, hmid]
      rw [List.filter_eq_self.mpr fun c hc => by
          simp only [ne_eq, decide_eq_true_eq]
          intro hcc
          subst hcc
          exact absurd (hpre _ hc) (by decide),
        List.filter_eq_self.mpr fun c hc => by
          simp only [ne_eq, decide_eq_true_eq]
          intro hcc
          subst hcc
          exact absurd (hpost _ hc) (by decide)]
    have hdd : ∀ c ∈ d, c.isDigit = true := fun c hc =>
      List.all_eq_true.mp hdig c hc
    have hne : d ≠ [] := by
      intro hd0
      rw [hd0] at hlen
      simp at hlen
    unfold cleanEin
    rw [hfilter, trimChars_ws_digits_ws hpre hpost hdd hne]
    rw [if_pos (by simp [allDigits, hdig, hlen, List.isEmpty_iff, hne])]

/-- Witness for the hypotheses of `c2_ein_normalization`: the three
conjuncts applied at concrete inputs — a successful parse with a 9-digit
EIN, a failing parse with an 8-digit EIN, and the cleaning of
`" 12-3456789 "`. -/
theorem c2_ein_normalization_witness :
    (({ ein := "123456789".data, name := "X" } : NonprofitOrganization).ein = [] ∨
      nineDigits (({ ein := "123456789".data, name := "X" }
        : NonprofitOrganization).ein.filter (fun c => c ≠ '-')) = true) ∧
    parseOrganization { ein := some (.vstr "12-345678".data), name := some "X" } =
      .error "EIN must be 9 digits" ∧
    cleanEin (" ".data ++ "12-3456789".data ++ " ".data) =
      some "123456789".data := by
  refine ⟨?_, ?_, ?_⟩
  · exact c2_ein_normalization.1
      { ein := some (.vstr "123456789".data), name := some "X" } _ rfl
  · exact c2_ein_normalization.2.1
      { ein := some (.vstr "12-345678".data), name := some "X" } "X"
      "12-345678".data rfl rfl (by decide) (by decide)
  · exact c2_ein_normalization.2.2 "123456789".data " ".data
      "12-3456789".data " ".data (by decide) (by decide) (by decide)
      (by decide) (by decide)

end Propublica
